import Mathlib

/-!
Verification of the telematics-io-manager authentication, authorization and
audit-logging core.  The definitions below are a shallow embedding of the
TypeScript source: `src/lib/auth.ts`, `src/lib/authMiddleware.ts`,
`src/lib/auditLog.ts`, the auth route handlers (login, logout, refresh,
change-password), the audit-log listing gate and the vendor CRUD handlers.
JavaScript strings are modelled by Lean `String` with explicit helpers for
JS truthiness (`""` is falsy) and `startsWith`/`slice`; the relational store
is modelled as explicit lists of rows; external collaborators (the JWT
library, bcrypt, randomness, clock) are oracles supplied in an `Env` record.
-/

namespace TIM

/-- JS `s.startsWith(pre)` (character-wise prefix test). -/
def jsStartsWith (s pre : String) : Bool :=
  pre.data.isPrefixOf s.data

/-- JS `s.slice(n)` for ASCII strings: drop the first `n` characters. -/
def jsSlice (s : String) (n : Nat) : String :=
  ⟨s.data.drop n⟩

/-- JS `s.length` (character count for the ASCII data appearing here). -/
def jsLength (s : String) : Nat :=
  s.data.length

/-- JS template interpolation of a possibly-undefined string. -/
def jsShow (o : Option String) : String :=
  match o with
  | some s => s
  | none => "undefined"

/-- JS `x || null` on an optional string: the empty string is falsy. -/
def jsOrNull (o : Option String) : Option String :=
  match o with
  | some s => if s = "" then none else some s
  | none => none

/-! ## Token issuer (`src/lib/auth.ts`) -/

/-- The identity claim carried by signed tokens (`TokenPayload`). -/
structure TokenPayload where
  userId : Nat
  username : String
  email : String
deriving Repr, DecidableEq

/-- Abstract verification status of a token string under the server secret:
the JWT library classifies a presented string as carrying a valid payload,
or as having a bad signature, being expired, or being malformed. -/
inductive TokenStatus where
  | valid (p : TokenPayload)
  | badSignature
  | expired
  | malformed
deriving Repr, DecidableEq

/-- `jwt.verify(token, JWT_SECRET)`: returns the decoded payload for a valid
token and throws (modelled as `Except.error`) on signature mismatch, expiry
or malformed input.  `env` is the classification of token strings induced by
the server secret and the clock. -/
def jwtVerify (env : String → TokenStatus) (tok : String) : Except String TokenPayload :=
  match env tok with
  | .valid p => .ok p
  | .badSignature => .error "invalid signature"
  | .expired => .error "jwt expired"
  | .malformed => .error "jwt malformed"

/-- `verifyToken` from `src/lib/auth.ts`: wraps `jwt.verify` in
`try {...} catch { return null }`. -/
def verifyToken (env : String → TokenStatus) (tok : String) : Option TokenPayload :=
  match jwtVerify env tok with
  | .ok p => some p
  | .error _ => none

/-! ## Relational store -/

/-- A row of the `Users` table (the columns the embedded handlers touch). -/
structure UserRow where
  UserID : Nat
  Username : String
  Email : String
  PasswordHash : String
  IsActive : Bool
  LastLoginAt : Option Nat
  UpdatedAt : Option Nat
deriving Repr, DecidableEq

/-- A row of the `RefreshTokens` table. -/
structure RefreshTokenRow where
  UserID : Nat
  Token : String
  ExpiresAt : Nat
  RevokedAt : Option Nat
deriving Repr, DecidableEq

/-- A serialized snapshot: the key/value record that `JSON.stringify`
receives (flat, as produced by DB rows and the typed request bodies). -/
def Snapshot : Type := List (String × String)

instance : DecidableEq Snapshot := by
  unfold Snapshot
  infer_instance

instance : Repr Snapshot := by
  unfold Snapshot
  infer_instance

instance : Append Snapshot := by
  unfold Snapshot
  infer_instance

/-- A row of the `AuditLogs` table as inserted by `createAuditLog`
(`AuditLogCreate`); the old/new values keep the structural form of the JSON
they serialize. -/
structure AuditLogRow where
  UserID : Option Nat
  Username : Option String
  Action : String
  Module : String
  RecordID : Option String
  RecordDescription : Option String
  OldValue : Option Snapshot
  NewValue : Option Snapshot
  IPAddress : Option String
  UserAgent : Option String
deriving Repr, DecidableEq

/-- A row of the `Vendor` table. -/
structure VendorRow where
  VendorID : Nat
  VendorName : Option String
  Country : Option String
  Website : Option String
deriving Repr, DecidableEq

/-- The relational store: the tables the embedded handlers read and write. -/
structure Db where
  users : List UserRow
  userRoles : List (Nat × Nat)
  rolePermissions : List (Nat × Nat)
  permissions : List (Nat × String)
  refreshTokens : List RefreshTokenRow
  auditLogs : List AuditLogRow
  vendors : List VendorRow
deriving Repr, DecidableEq

/-- Failure modes of the underlying store. -/
inductive DbError where
  | connectionFailure
  | queryError
  | serializationError
deriving Repr, DecidableEq

/-- External collaborators: token classification and signing, bcrypt,
the per-request random token, the clock, and fault injection for the audit
insert and the permission query. -/
structure Env where
  tokenStatus : String → TokenStatus
  signAccess : TokenPayload → String
  signRefresh : TokenPayload → String
  randomToken : String
  compare : String → String → Bool
  hashPw : String → String
  auditFail : Option DbError
  permQueryFail : Bool
  now : Nat

/-! ## Audit recorder (`src/lib/auditLog.ts`) -/

/-- The store-level `INSERT INTO AuditLogs ...`: appends one row, or fails
with the injected store error. -/
def insertAuditLog (fail : Option DbError) (db : Db) (row : AuditLogRow) :
    Except DbError Db :=
  match fail with
  | some e => .error e
  | none => .ok { db with auditLogs := db.auditLogs ++ [row] }

/-- `createAuditLog`: the insert wrapped in `try {...} catch { console.error }`
— every store failure is swallowed and the function returns normally. -/
def createAuditLog (fail : Option DbError) (db : Db) (row : AuditLogRow) : Db :=
  match insertAuditLog fail db row with
  | .ok db1 => db1
  | .error _ => db

/-- `sanitizeForAudit`: copies the record and deletes the `Password`,
`PasswordHash`, `accessToken` and `refreshToken` keys before serialization. -/
def sanitizeForAudit (obj : Snapshot) : Snapshot :=
  ((((obj.filter (fun kv => kv.1 != "Password")).filter
      (fun kv => kv.1 != "PasswordHash")).filter
      (fun kv => kv.1 != "accessToken")).filter
      (fun kv => kv.1 != "refreshToken"))

/-! ## Requests and the authorization gate (`src/lib/authMiddleware.ts`) -/

/-- The parts of an inbound request the embedded code inspects.  `ipAddress`
and `userAgent` are the values computed by `getClientIP`/`getUserAgent`. -/
structure Request where
  authHeader : Option String
  cookieAccessToken : Option String
  cookieRefreshToken : Option String
  ipAddress : String
  userAgent : String
deriving Repr, DecidableEq

/-- Token extraction in `getAuthUser`: prefer the `Authorization` header when
it starts with `Bearer ` (taking `slice(7)`), fall back to the `accessToken`
cookie; JS truthiness makes an empty candidate fall through, and no usable
token yields `none`. -/
def extractToken (req : Request) : Option String :=
  let fromHeader : Option String :=
    match req.authHeader with
    | some h => if jsStartsWith h "Bearer " then some (jsSlice h 7) else none
    | none => none
  let fromCookie : Option String :=
    match req.cookieAccessToken with
    | some c => if c = "" then none else some c
    | none => none
  match fromHeader with
  | some t => if t = "" then fromCookie else some t
  | none => fromCookie

/-- The permission query in `getAuthUser`:
`SELECT DISTINCT p.PermissionName FROM Users u JOIN UserRoles ur ... JOIN
RolePermissions rp ... JOIN Permissions p ... WHERE u.UserID = @UserID AND
u.IsActive = 1`. -/
def permissionQuery (db : Db) (uid : Nat) : List String :=
  ((db.users.filter (fun u => u.UserID == uid && u.IsActive)).flatMap (fun u =>
    (db.userRoles.filter (fun ur => ur.1 == u.UserID)).flatMap (fun ur =>
      (db.rolePermissions.filter (fun rp => rp.1 == ur.2)).flatMap (fun rp =>
        (db.permissions.filter (fun p => p.1 == rp.2)).map (·.2))))).dedup

/-- The authenticated caller: token payload plus resolved permissions. -/
structure AuthUserInfo where
  payload : TokenPayload
  permissions : List String
deriving Repr, DecidableEq

/-- `getAuthUser`: extract the token, verify it, then resolve permissions;
a DB failure in the permission query is caught and yields `none`. -/
def getAuthUser (env : Env) (db : Db) (req : Request) : Option AuthUserInfo :=
  match extractToken req with
  | none => none
  | some tok =>
    match verifyToken env.tokenStatus tok with
    | none => none
    | some payload =>
      if env.permQueryFail then none
      else some ⟨payload, permissionQuery db payload.userId⟩

/-- Result of a gate call: an early JSON error response, or the caller. -/
inductive GateResult where
  | respond (status : Nat) (error : String)
  | allow (user : AuthUserInfo)
deriving Repr, DecidableEq

/-- `requireAuth`: `some` early 401 response, or `none` to proceed. -/
def requireAuth (env : Env) (db : Db) (req : Request) : Option (Nat × String) :=
  match getAuthUser env db req with
  | none => some (401, "Unauthorized")
  | some _ => none

/-- `requirePermission`: 401 with no identity, 403 when the resolved set
lacks the required permission, otherwise the caller. -/
def requirePermission (env : Env) (db : Db) (req : Request) (perm : String) :
    GateResult :=
  match getAuthUser env db req with
  | none => .respond 401 "Unauthorized"
  | some user =>
    if user.permissions.contains perm then .allow user
    else .respond 403 "Forbidden: Insufficient permissions"

/-! ## Audit-log listing gate (`GET /audit-logs`) -/

/-- The authentication/authorization prefix of the audit-log listing
handler: 401 without identity; allow with `audit_logs.read` or any
permission starting with `users.` or `roles.`; otherwise 403. -/
def auditLogsGate (env : Env) (db : Db) (req : Request) : GateResult :=
  match getAuthUser env db req with
  | none => .respond 401 "Unauthorized"
  | some user =>
    let hasPerm := user.permissions.contains "audit_logs.read"
    let isAdmin := user.permissions.any
      (fun p => jsStartsWith p "users." || jsStartsWith p "roles.")
    if !hasPerm && !isAdmin then
      .respond 403 "Forbidden: Insufficient permissions"
    else .allow user

/-! ## Login (`POST /auth/login`) -/

/-- The parsed login request body. -/
structure LoginRequestBody where
  username : String
  password : String
deriving Repr, DecidableEq

/-- The login handler's response (status and payload fields the claims
inspect). -/
inductive LoginOutcome where
  | badRequest (error : String)
  | unauthorized (error : String)
  | success (accessToken refreshToken : String) (permissions : List String)
deriving Repr, DecidableEq

/-- The permission query run inside the login handler:
`SELECT DISTINCT p.PermissionName FROM Permissions p JOIN RolePermissions rp
... JOIN UserRoles ur ... WHERE ur.UserID = @UserID` (no `IsActive`
filter, unlike the middleware's query). -/
def loginPermissionQuery (db : Db) (uid : Nat) : List String :=
  ((db.userRoles.filter (fun ur => ur.1 == uid)).flatMap (fun ur =>
    (db.rolePermissions.filter (fun rp => rp.1 == ur.2)).flatMap (fun rp =>
      (db.permissions.filter (fun p => p.1 == rp.2)).map (·.2)))).dedup

/-- The `LOGIN_FAILED` audit entry for an unknown username. -/
def loginFailedNoUserRow (req : Request) (username : String) : AuditLogRow :=
  { UserID := none, Username := none, Action := "LOGIN_FAILED",
    Module := "Auth", RecordID := none,
    RecordDescription :=
      some ("Failed login attempt for username: " ++ username),
    OldValue := none, NewValue := none,
    IPAddress := some req.ipAddress, UserAgent := some req.userAgent }

/-- The `LOGIN_FAILED` audit entry for an inactive account. -/
def loginFailedInactiveRow (req : Request) (username : String) : AuditLogRow :=
  { UserID := none, Username := none, Action := "LOGIN_FAILED",
    Module := "Auth", RecordID := none,
    RecordDescription :=
      some ("Login attempt for inactive user: " ++ username),
    OldValue := none, NewValue := none,
    IPAddress := some req.ipAddress, UserAgent := some req.userAgent }

/-- The `LOGIN_FAILED` audit entry for a wrong password. -/
def loginFailedBadPasswordRow (user : UserRow) (req : Request)
    (username : String) : AuditLogRow :=
  { UserID := some user.UserID, Username := some user.Username,
    Action := "LOGIN_FAILED", Module := "Auth", RecordID := none,
    RecordDescription := some ("Invalid password for user: " ++ username),
    OldValue := none, NewValue := none,
    IPAddress := some req.ipAddress, UserAgent := some req.userAgent }

/-- The `LOGIN` audit entry for a successful login. -/
def loginSuccessRow (user : UserRow) (req : Request)
    (username : String) : AuditLogRow :=
  { UserID := some user.UserID, Username := some user.Username,
    Action := "LOGIN", Module := "Auth", RecordID := none,
    RecordDescription := some ("User " ++ username ++ " logged in"),
    OldValue := none, NewValue := none,
    IPAddress := some req.ipAddress, UserAgent := some req.userAgent }

/-- `POST /auth/login`: validate, look up the user by username, reject
inactive accounts and wrong passwords with a `LOGIN_FAILED` audit entry,
otherwise sign a token pair, insert the opaque random token into
`RefreshTokens`, stamp `LastLoginAt` and record a `LOGIN` audit entry. -/
def loginPOST (env : Env) (db : Db) (req : Request) (body : LoginRequestBody) :
    Db × LoginOutcome :=
  if body.username == "" || body.password == "" then
    (db, .badRequest "Username and password are required")
  else
    match db.users.find? (fun u => u.Username == body.username) with
    | none =>
      let db1 := createAuditLog env.auditFail db
        (loginFailedNoUserRow req body.username)
      (db1, .unauthorized "Invalid credentials")
    | some user =>
      if !user.IsActive then
        let db1 := createAuditLog env.auditFail db
          (loginFailedInactiveRow req body.username)
        (db1, .unauthorized "Account is inactive")
      else if !(env.compare body.password user.PasswordHash) then
        let db1 := createAuditLog env.auditFail db
          (loginFailedBadPasswordRow user req body.username)
        (db1, .unauthorized "Invalid credentials")
      else
        let perms := loginPermissionQuery db user.UserID
        let payload : TokenPayload := ⟨user.UserID, user.Username, user.Email⟩
        let accessToken := env.signAccess payload
        let refreshToken := env.signRefresh payload
        let dbRefreshToken := env.randomToken
        let expiresAt := env.now + 7 * 24 * 60 * 60 * 1000
        let newRow : RefreshTokenRow :=
          { UserID := user.UserID, Token := dbRefreshToken,
            ExpiresAt := expiresAt, RevokedAt := none }
        let db1 := { db with refreshTokens := db.refreshTokens ++ [newRow] }
        let db2 := { db1 with users := db1.users.map (fun u =>
          if u.UserID == user.UserID then { u with LastLoginAt := some env.now }
          else u) }
        let db3 := createAuditLog env.auditFail db2
          (loginSuccessRow user req body.username)
        (db3, .success accessToken refreshToken perms)

/-! ## Logout (`POST /auth/logout`) -/

/-- `UPDATE RefreshTokens SET RevokedAt = GETDATE() WHERE Token = @Token`. -/
def revokeRefreshTokens (db : Db) (tok : String) (now : Nat) : Db :=
  { db with refreshTokens := db.refreshTokens.map (fun r =>
      if r.Token == tok then { r with RevokedAt := some now } else r) }

/-- The logout handler's response. -/
inductive LogoutOutcome where
  | success (message : String)
deriving Repr, DecidableEq

/-- The `LOGOUT` audit entry. -/
def logoutRow (u : AuthUserInfo) (req : Request) : AuditLogRow :=
  { UserID := some u.payload.userId, Username := some u.payload.username,
    Action := "LOGOUT", Module := "Auth", RecordID := none,
    RecordDescription := some ("User " ++ u.payload.username ++ " logged out"),
    OldValue := none, NewValue := none,
    IPAddress := some req.ipAddress, UserAgent := some req.userAgent }

/-- `POST /auth/logout`: run the revocation `UPDATE` keyed on the
`refreshToken` cookie value, clear the cookies, and record a `LOGOUT`
audit entry when the caller was identified. -/
def logoutPOST (env : Env) (db : Db) (req : Request) : Db × LogoutOutcome :=
  let user := getAuthUser env db req
  let db1 :=
    match req.cookieRefreshToken with
    | some tok => if tok = "" then db else revokeRefreshTokens db tok env.now
    | none => db
  let db2 :=
    match user with
    | some u => createAuditLog env.auditFail db1 (logoutRow u req)
    | none => db1
  (db2, .success "Logged out successfully")

/-! ## Token refresh (`POST /auth/refresh`) -/

/-- The refresh handler's response. -/
inductive RefreshOutcome where
  | unauthorized (error : String)
  | success (accessToken refreshToken : String)
deriving Repr, DecidableEq

/-- `POST /auth/refresh`: read the `refreshToken` cookie, verify the signed
token, check the user exists and is active, and mint a fresh pair.  The
handler performs no read of the `RefreshTokens` table. -/
def refreshPOST (env : Env) (db : Db) (req : Request) : RefreshOutcome :=
  let tok? : Option String :=
    match req.cookieRefreshToken with
    | some t => if t = "" then none else some t
    | none => none
  match tok? with
  | none => .unauthorized "Refresh token not found"
  | some tok =>
    match verifyToken env.tokenStatus tok with
    | none => .unauthorized "Invalid refresh token"
    | some payload =>
      match db.users.find? (fun u => u.UserID == payload.userId) with
      | none => .unauthorized "User not found or inactive"
      | some user =>
        if !user.IsActive then .unauthorized "User not found or inactive"
        else
          let p2 : TokenPayload := ⟨user.UserID, user.Username, user.Email⟩
          .success (env.signAccess p2) (env.signRefresh p2)

/-! ## Change password (`POST /auth/change-password`) -/

/-- The parsed change-password request body (absent fields read as `""`,
which is falsy like `undefined`). -/
structure ChangePasswordBody where
  currentPassword : String
  newPassword : String
  confirmPassword : String
deriving Repr, DecidableEq

/-- The change-password handler's response. -/
inductive ChangePasswordOutcome where
  | unauthorized (error : String)
  | badRequest (error : String)
  | notFound (error : String)
  | success (message : String)
deriving Repr, DecidableEq

/-- The audit entry recorded by a successful password change. -/
def changePasswordRow (user : AuthUserInfo) (req : Request) : AuditLogRow :=
  { UserID := some user.payload.userId,
    Username := some user.payload.username,
    Action := "UPDATE", Module := "Users",
    RecordID := some (toString user.payload.userId),
    RecordDescription :=
      some ("Password changed for user: " ++ user.payload.username),
    OldValue := none, NewValue := none,
    IPAddress := some req.ipAddress, UserAgent := some req.userAgent }

/-- `UPDATE Users SET PasswordHash = @PasswordHash, UpdatedAt = GETDATE()
WHERE UserID = @UserID`. -/
def setPasswordHash (uid : Nat) (newHash : String) (now : Nat)
    (u : UserRow) : UserRow :=
  if u.UserID == uid then
    { u with PasswordHash := newHash, UpdatedAt := some now }
  else u

/-- `POST /auth/change-password`: authenticate, validate the three fields,
fetch the stored hash (`WHERE UserID = @UserID AND IsActive = 1`), verify
the current password, then store the new hash and record an audit entry. -/
def changePasswordPOST (env : Env) (db : Db) (req : Request)
    (body : ChangePasswordBody) : Db × ChangePasswordOutcome :=
  match getAuthUser env db req with
  | none => (db, .unauthorized "Not authenticated")
  | some user =>
    if body.currentPassword == "" || body.newPassword == "" ||
        body.confirmPassword == "" then
      (db, .badRequest "All fields are required")
    else if body.newPassword != body.confirmPassword then
      (db, .badRequest "New passwords do not match")
    else if jsLength body.newPassword < 6 then
      (db, .badRequest "New password must be at least 6 characters")
    else
      match db.users.find?
          (fun u => u.UserID == user.payload.userId && u.IsActive) with
      | none => (db, .notFound "User not found")
      | some urow =>
        if !(env.compare body.currentPassword urow.PasswordHash) then
          (db, .badRequest "Current password is incorrect")
        else
          let newHash := env.hashPw body.newPassword
          let newUsers :=
            db.users.map (setPasswordHash user.payload.userId newHash env.now)
          let db1 := { db with users := newUsers }
          let db2 := createAuditLog env.auditFail db1
            (changePasswordRow user req)
          (db2, .success "Password changed successfully")

/-! ## Vendor handlers (`POST /vendors`, `PUT /vendors/:id`) -/

/-- The body of `POST /vendors` (`VendorCreate`). -/
structure VendorCreateBody where
  VendorName : Option String
  Country : Option String
  Website : Option String
deriving Repr, DecidableEq

/-- The body of `PUT /vendors/:id` as the handler reads it
(`VendorUpdate`; all fields optional). -/
structure VendorUpdateBody where
  VendorName : Option String
  Country : Option String
  Website : Option String
deriving Repr, DecidableEq

/-- A `SELECT * FROM Vendor` row as the flat record handed to
`sanitizeForAudit`. -/
def vendorRecord (v : VendorRow) : Snapshot :=
  [("VendorID", toString v.VendorID),
   ("VendorName", jsShow v.VendorName),
   ("Country", jsShow v.Country),
   ("Website", jsShow v.Website)]

/-- The `VendorUpdate` body as the flat record handed to `sanitizeForAudit`
(absent fields are absent keys). -/
def vendorUpdateRecord (b : VendorUpdateBody) : Snapshot :=
  (match b.VendorName with | some s => [("VendorName", s)] | none => []) ++
  (match b.Country with | some s => [("Country", s)] | none => []) ++
  (match b.Website with | some s => [("Website", s)] | none => [])

/-- The vendor-create handler's response. -/
inductive VendorCreateOutcome where
  | badRequest (error : String)
  | success (v : VendorRow) (message : String)
deriving Repr, DecidableEq

/-- The identity column value assigned by the `INSERT`. -/
def nextVendorId (db : Db) : Nat :=
  (db.vendors.map (·.VendorID)).foldr max 0 + 1

/-- `POST /vendors`: require a truthy `VendorName`, `INSERT ... OUTPUT
INSERTED.*`, and answer success.  The handler contains no audit call. -/
def vendorCreatePOST (db : Db) (body : VendorCreateBody) :
    Db × VendorCreateOutcome :=
  match jsOrNull body.VendorName with
  | none => (db, .badRequest "VendorName is required")
  | some name =>
    let row : VendorRow :=
      ⟨nextVendorId db, some name, jsOrNull body.Country, jsOrNull body.Website⟩
    ({ db with vendors := db.vendors ++ [row] },
     .success row "Vendor created successfully")

/-- The vendor-update handler's response. -/
inductive VendorUpdateOutcome where
  | notFound (error : String)
  | success (v : VendorRow) (message : String)
deriving Repr, DecidableEq

/-- The `SET` clause of the vendor `UPDATE` applied to one row. -/
def vendorUpdateApply (id : Nat) (body : VendorUpdateBody)
    (v : VendorRow) : VendorRow :=
  if v.VendorID == id then
    { v with VendorName := body.VendorName,
             Country := jsOrNull body.Country,
             Website := jsOrNull body.Website }
  else v

/-- The `UPDATE` audit entry of the vendor-update handler, with sanitized
old/new snapshots. -/
def vendorUpdateAuditRow (env : Env) (db : Db) (req : Request) (id : Nat)
    (body : VendorUpdateBody) : AuditLogRow :=
  { UserID := (getAuthUser env db req).map (·.payload.userId),
    Username := (getAuthUser env db req).map (·.payload.username),
    Action := "UPDATE", Module := "Vendors",
    RecordID := some (toString id),
    RecordDescription := some ("Updated vendor: " ++ jsShow body.VendorName),
    OldValue := (db.vendors.find? (fun v => v.VendorID == id)).map
      (fun v => sanitizeForAudit (vendorRecord v)),
    NewValue := some (sanitizeForAudit (vendorUpdateRecord body)),
    IPAddress := some req.ipAddress, UserAgent := some req.userAgent }

/-- `PUT /vendors/:id` (audited variant): read the old row, run the
`UPDATE ... OUTPUT INSERTED.*`, answer 404 when no row matched, otherwise
record one `UPDATE` audit entry with sanitized snapshots and answer
success. -/
def vendorUpdatePUT (env : Env) (db : Db) (req : Request) (id : Nat)
    (body : VendorUpdateBody) : Db × VendorUpdateOutcome :=
  let updated := db.vendors.map (vendorUpdateApply id body)
  match updated.filter (fun v => v.VendorID == id) with
  | [] => (db, .notFound "Vendor not found")
  | r :: _ =>
    let db1 := { db with vendors := updated }
    let db2 := createAuditLog env.auditFail db1
      (vendorUpdateAuditRow env db req id body)
    (db2, .success r "Vendor updated successfully")

/-! ## Concrete fixtures used by witnesses and counterexamples -/

/-- A concrete identity claim. -/
def payloadA : TokenPayload := ⟨1, "alice", "alice@example.com"⟩

/-- A second concrete identity claim (an inactive account). -/
def payloadB : TokenPayload := ⟨2, "bob", "bob@example.com"⟩

/-- An active user row. -/
def aliceRow : UserRow :=
  { UserID := 1, Username := "alice", Email := "alice@example.com",
    PasswordHash := "HASH1", IsActive := true,
    LastLoginAt := none, UpdatedAt := none }

/-- An inactive user row. -/
def bobRow : UserRow :=
  { UserID := 2, Username := "bob", Email := "bob@example.com",
    PasswordHash := "HASH2", IsActive := false,
    LastLoginAt := none, UpdatedAt := none }

/-- A concrete environment: the server secret validates the strings `acc1`,
`ref1` and `accB`; bcrypt accepts alice's and bob's passwords. -/
def envA : Env :=
  { tokenStatus := fun s =>
      if s = "acc1" then .valid payloadA
      else if s = "ref1" then .valid payloadA
      else if s = "accB" then .valid payloadB
      else .malformed,
    signAccess := fun _ => "acc1",
    signRefresh := fun _ => "ref1",
    randomToken := "opaque-hex-1",
    compare := fun p h =>
      (p == "secret123" && h == "HASH1") || (p == "oldpw" && h == "HASH2"),
    hashPw := fun p => "h:" ++ p,
    auditFail := none, permQueryFail := false, now := 1000 }

/-- A concrete store: alice holds `vendors.read` and `audit_logs.read`
through role 10; one vendor row exists. -/
def dbA : Db :=
  { users := [aliceRow, bobRow],
    userRoles := [(1, 10)],
    rolePermissions := [(10, 100), (10, 101)],
    permissions := [(100, "vendors.read"), (101, "audit_logs.read")],
    refreshTokens := [], auditLogs := [],
    vendors := [{ VendorID := 5, VendorName := some "Acme",
                  Country := none, Website := none }] }

/-- An unauthenticated request (as sent to `/auth/login`). -/
def reqLogin : Request :=
  { authHeader := none, cookieAccessToken := none, cookieRefreshToken := none,
    ipAddress := "203.0.113.5", userAgent := "agent" }

/-- A request of alice's logged-in session: bearer header plus both
cookies as set by `setAuthCookies`. -/
def reqSession : Request :=
  { authHeader := some "Bearer acc1", cookieAccessToken := some "acc1",
    cookieRefreshToken := some "ref1",
    ipAddress := "203.0.113.5", userAgent := "agent" }

/-- A request authenticated with the inactive user's valid access token. -/
def reqBob : Request :=
  { authHeader := some "Bearer accB", cookieAccessToken := none,
    cookieRefreshToken := none,
    ipAddress := "203.0.113.5", userAgent := "agent" }

/-! ## Theorems -/

/-- Claim C5: for every record serialized into an audit snapshot, the
sanitized result never contains a `Password`, `PasswordHash`, `accessToken`
or `refreshToken` key, whatever the input record contained. -/
theorem c5_sanitize_never_keeps_secret_keys (obj : Snapshot) :
    "Password" ∉ (sanitizeForAudit obj).map Prod.fst ∧
    "PasswordHash" ∉ (sanitizeForAudit obj).map Prod.fst ∧
    "accessToken" ∉ (sanitizeForAudit obj).map Prod.fst ∧
    "refreshToken" ∉ (sanitizeForAudit obj).map Prod.fst := by
  have key : ∀ k, k ∈ (sanitizeForAudit obj).map Prod.fst →
      k ≠ "Password" ∧ k ≠ "PasswordHash" ∧
      k ≠ "accessToken" ∧ k ≠ "refreshToken" := by
    intro k hk
    rcases List.mem_map.mp hk with ⟨kv, hmem, hfst⟩
    unfold sanitizeForAudit at hmem
    rcases List.mem_filter.mp hmem with ⟨hm3, h4⟩
    rcases List.mem_filter.mp hm3 with ⟨hm2, h3⟩
    rcases List.mem_filter.mp hm2 with ⟨hm1, h2⟩
    rcases List.mem_filter.mp hm1 with ⟨_, h1⟩
    subst hfst
    exact ⟨bne_iff_ne.mp h1, bne_iff_ne.mp h2, bne_iff_ne.mp h3, bne_iff_ne.mp h4⟩
  exact ⟨fun hm => (key _ hm).1 rfl, fun hm => (key _ hm).2.1 rfl,
         fun hm => (key _ hm).2.2.1 rfl, fun hm => (key _ hm).2.2.2 rfl⟩

/-- Witness for C5: a record carrying every secret field is stripped of
all of them. -/
theorem c5_sanitize_never_keeps_secret_keys_witness :
    "Password" ∉ (sanitizeForAudit
      [("Password", "pw"), ("PasswordHash", "h"), ("accessToken", "a"),
       ("refreshToken", "r"), ("Username", "alice")]).map Prod.fst ∧
    "PasswordHash" ∉ (sanitizeForAudit
      [("Password", "pw"), ("PasswordHash", "h"), ("accessToken", "a"),
       ("refreshToken", "r"), ("Username", "alice")]).map Prod.fst ∧
    "accessToken" ∉ (sanitizeForAudit
      [("Password", "pw"), ("PasswordHash", "h"), ("accessToken", "a"),
       ("refreshToken", "r"), ("Username", "alice")]).map Prod.fst ∧
    "refreshToken" ∉ (sanitizeForAudit
      [("Password", "pw"), ("PasswordHash", "h"), ("accessToken", "a"),
       ("refreshToken", "r"), ("Username", "alice")]).map Prod.fst :=
  c5_sanitize_never_keeps_secret_keys
    [("Password", "pw"), ("PasswordHash", "h"), ("accessToken", "a"),
     ("refreshToken", "r"), ("Username", "alice")]

/-- Claim C6: `verifyToken` returns the decoded payload exactly for valid
tokens; a bad signature, expiry or malformed token yields `null`; and any
exception raised by `jwt.verify` is caught, so `verifyToken` never throws
to its caller. -/
theorem c6_verifyToken_fails_closed (env : String → TokenStatus)
    (tok : String) :
    ((env tok = .badSignature ∨ env tok = .expired ∨ env tok = .malformed) →
      verifyToken env tok = none) ∧
    (∀ p, env tok = .valid p → verifyToken env tok = some p) ∧
    (∀ e, jwtVerify env tok = .error e → verifyToken env tok = none) := by
  refine ⟨?_, ?_, ?_⟩
  · intro hbad
    unfold verifyToken jwtVerify
    rcases hbad with h | h | h <;> rw [h]
  · intro p hp
    unfold verifyToken jwtVerify
    rw [hp]
  · intro e he
    unfold verifyToken
    rw [he]

/-- Witness for C6: a concrete expired token yields `null` and a concrete
valid token yields its payload. -/
theorem c6_verifyToken_fails_closed_witness :
    verifyToken (fun _ => TokenStatus.expired) "tok" = none ∧
    verifyToken (fun _ => TokenStatus.valid payloadA) "tok" = some payloadA :=
  ⟨(c6_verifyToken_fails_closed (fun _ => TokenStatus.expired) "tok").1
      (Or.inr (Or.inl rfl)),
   (c6_verifyToken_fails_closed (fun _ => TokenStatus.valid payloadA) "tok").2.1
      payloadA rfl⟩

/-- Claim C3: the gate takes the bearer token from the `Authorization:
Bearer` header first, falls back to the `accessToken` cookie, answers 401
with no token or a token that fails verification, and answers 403 with the
message `Forbidden: Insufficient permissions` when the resolved permission
set lacks the required permission. -/
theorem c3_gate_behaviour (env : Env) (db : Db) (req : Request)
    (perm : String) :
    (∀ h t, req.authHeader = some h → jsStartsWith h "Bearer " = true →
      jsSlice h 7 = t → t ≠ "" → extractToken req = some t) ∧
    (∀ c, req.authHeader = none → req.cookieAccessToken = some c → c ≠ "" →
      extractToken req = some c) ∧
    (extractToken req = none →
      requirePermission env db req perm = .respond 401 "Unauthorized") ∧
    (∀ t, extractToken req = some t → verifyToken env.tokenStatus t = none →
      requirePermission env db req perm = .respond 401 "Unauthorized") ∧
    (∀ u, getAuthUser env db req = some u →
      u.permissions.contains perm = false →
      requirePermission env db req perm =
        .respond 403 "Forbidden: Insufficient permissions") := by
  refine ⟨?_, ?_, ?_, ?_, ?_⟩
  · intro h t hh hsw hsl ht
    simp [extractToken, hh, hsw, hsl, ht]
  · intro c hh hc hcne
    simp [extractToken, hh, hc, hcne]
  · intro hext
    simp [requirePermission, getAuthUser, hext]
  · intro t ht hv
    simp [requirePermission, getAuthUser, ht, hv]
  · intro u hu hcont
    unfold requirePermission
    rw [hu]
    show (if u.permissions.contains perm = true then GateResult.allow u
      else GateResult.respond 403 "Forbidden: Insufficient permissions") = _
    rw [hcont]
    simp

/-- Witness for C3: concrete requests exercising the header path, the
cookie fallback, the missing-token 401, the invalid-token 401 and the
missing-permission 403. -/
theorem c3_gate_behaviour_witness :
    extractToken reqSession = some "acc1" ∧
    extractToken { reqSession with authHeader := none } = some "acc1" ∧
    requirePermission envA dbA reqLogin "vendors.read" =
      .respond 401 "Unauthorized" ∧
    requirePermission envA dbA { reqLogin with authHeader := some "Bearer zz" }
      "vendors.read" = .respond 401 "Unauthorized" ∧
    requirePermission envA dbA reqSession "vendors.delete" =
      .respond 403 "Forbidden: Insufficient permissions" :=
  ⟨(c3_gate_behaviour envA dbA reqSession "vendors.read").1 "Bearer acc1"
      "acc1" rfl (by decide) (by decide) (by decide),
   (c3_gate_behaviour envA dbA { reqSession with authHeader := none }
      "vendors.read").2.1 "acc1" rfl rfl (by decide),
   (c3_gate_behaviour envA dbA reqLogin "vendors.read").2.2.1 (by decide),
   (c3_gate_behaviour envA dbA { reqLogin with authHeader := some "Bearer zz" }
      "vendors.read").2.2.2.1 "zz" (by decide) (by decide),
   (c3_gate_behaviour envA dbA reqSession "vendors.delete").2.2.2.2
      ⟨payloadA, permissionQuery dbA 1⟩ (by decide) (by decide)⟩

/-- Claim C4: an authenticated `GET /audit-logs` request passes the gate
exactly when the caller holds `audit_logs.read` or some permission starting
with `users.` or `roles.`; otherwise it is rejected 403. -/
theorem c4_audit_logs_access (env : Env) (db : Db) (req : Request)
    (u : AuthUserInfo) (hu : getAuthUser env db req = some u) :
    (auditLogsGate env db req = .allow u ∨
     auditLogsGate env db req =
       .respond 403 "Forbidden: Insufficient permissions") ∧
    (auditLogsGate env db req = .allow u ↔
      (u.permissions.contains "audit_logs.read" = true ∨
       u.permissions.any
         (fun p => jsStartsWith p "users." || jsStartsWith p "roles.") = true)) := by
  unfold auditLogsGate
  rw [hu]
  cases hperm : u.permissions.contains "audit_logs.read" <;>
  cases hadm : u.permissions.any
      (fun p => jsStartsWith p "users." || jsStartsWith p "roles.") <;>
  simp only [hperm, hadm] <;> simp

/-- Witness for C4: alice holds `audit_logs.read` and passes the gate;
bob's identity resolves to no permissions and is rejected 403. -/
theorem c4_audit_logs_access_witness :
    auditLogsGate envA dbA reqSession =
      .allow ⟨payloadA, permissionQuery dbA 1⟩ ∧
    auditLogsGate envA dbA reqBob =
      .respond 403 "Forbidden: Insufficient permissions" :=
  ⟨(c4_audit_logs_access envA dbA reqSession ⟨payloadA, permissionQuery dbA 1⟩
      (by decide)).2.mpr (Or.inl (by decide)),
   by
    rcases (c4_audit_logs_access envA dbA reqBob
        ⟨payloadB, permissionQuery dbA 2⟩ (by decide)).1 with h | h
    · exact absurd ((c4_audit_logs_access envA dbA reqBob
        ⟨payloadB, permissionQuery dbA 2⟩ (by decide)).2.mp h) (by decide)
    · exact h⟩

/-- Claim C10: with a valid access token, a thrown permission-resolution
query is caught inside `getAuthUser`, which returns `null`; every guarded
endpoint therefore answers 401 Unauthorized, never the generic 500. -/
theorem c10_db_outage_is_401 (env : Env) (db : Db) (req : Request)
    (tok : String) (p : TokenPayload)
    (hfail : env.permQueryFail = true)
    (htok : extractToken req = some tok)
    (hval : verifyToken env.tokenStatus tok = some p) :
    getAuthUser env db req = none ∧
    requireAuth env db req = some (401, "Unauthorized") ∧
    ∀ perm, requirePermission env db req perm = .respond 401 "Unauthorized" := by
  have hga : getAuthUser env db req = none := by
    simp [getAuthUser, htok, hval, hfail]
  exact ⟨hga, by simp [requireAuth, hga],
         fun perm => by simp [requirePermission, hga]⟩

/-- Witness for C10: alice's valid token with a failing permission query is
answered 401. -/
theorem c10_db_outage_is_401_witness :
    getAuthUser { envA with permQueryFail := true } dbA reqSession = none ∧
    requirePermission { envA with permQueryFail := true } dbA reqSession
      "vendors.read" = .respond 401 "Unauthorized" :=
  ⟨(c10_db_outage_is_401 { envA with permQueryFail := true } dbA reqSession
      "acc1" payloadA rfl (by decide) (by decide)).1,
   (c10_db_outage_is_401 { envA with permQueryFail := true } dbA reqSession
      "acc1" payloadA rfl (by decide) (by decide)).2.2 "vendors.read"⟩

/-! ### Helper lemmas on the audit recorder -/

/-- `createAuditLog` never touches the `Users` table. -/
theorem createAuditLog_users (f : Option DbError) (db : Db)
    (row : AuditLogRow) : (createAuditLog f db row).users = db.users := by
  cases f <;> rfl

/-- `createAuditLog` never touches the `RefreshTokens` table. -/
theorem createAuditLog_refreshTokens (f : Option DbError) (db : Db)
    (row : AuditLogRow) :
    (createAuditLog f db row).refreshTokens = db.refreshTokens := by
  cases f <;> rfl

/-- `createAuditLog` never touches the `Vendor` table. -/
theorem createAuditLog_vendors (f : Option DbError) (db : Db)
    (row : AuditLogRow) : (createAuditLog f db row).vendors = db.vendors := by
  cases f <;> rfl

/-- With a working store, `createAuditLog` appends exactly one row. -/
theorem createAuditLog_none_auditLogs (db : Db) (row : AuditLogRow) :
    (createAuditLog none db row).auditLogs = db.auditLogs ++ [row] := rfl

/-- Claim C7: every store failure while writing an audit entry is caught
inside `createAuditLog`, which returns normally with the store unchanged;
a business handler that calls it (the vendor update) still answers the
same response and keeps the same business rows as with a working audit
store. -/
theorem c7_audit_failures_absorbed (env : Env) (db : Db) (row : AuditLogRow)
    (err : DbError) (req : Request) (id : Nat) (body : VendorUpdateBody)
    (hfail : env.auditFail = some err) :
    insertAuditLog (some err) db row = .error err ∧
    createAuditLog (some err) db row = db ∧
    (vendorUpdatePUT env db req id body).2 =
      (vendorUpdatePUT { env with auditFail := none } db req id body).2 ∧
    (vendorUpdatePUT env db req id body).1.vendors =
      (vendorUpdatePUT { env with auditFail := none } db req id body).1.vendors := by
  refine ⟨rfl, rfl, ?_, ?_⟩ <;>
  · simp only [vendorUpdatePUT]
    cases h : (db.vendors.map (vendorUpdateApply id body)).filter
        (fun v => v.VendorID == id) with
    | nil => rfl
    | cons r rest => simp [createAuditLog_vendors]

/-- Witness for C7: with a failing audit store, the failed login audit
write leaves the store unchanged and the vendor update still answers the
same response as with a working audit store. -/
theorem c7_audit_failures_absorbed_witness :
    createAuditLog (some DbError.queryError) dbA
      (loginFailedNoUserRow reqLogin "mallory") = dbA ∧
    (vendorUpdatePUT { envA with auditFail := some DbError.queryError } dbA
        reqSession 5
        { VendorName := some "AcmeX", Country := none, Website := none }).2 =
      (vendorUpdatePUT
        { { envA with auditFail := some DbError.queryError } with
            auditFail := none } dbA reqSession 5
        { VendorName := some "AcmeX", Country := none, Website := none }).2 :=
  ⟨(c7_audit_failures_absorbed
      { envA with auditFail := some DbError.queryError } dbA
      (loginFailedNoUserRow reqLogin "mallory") DbError.queryError reqSession 5
      { VendorName := some "AcmeX", Country := none, Website := none }
      rfl).2.1,
   (c7_audit_failures_absorbed
      { envA with auditFail := some DbError.queryError } dbA
      (loginFailedNoUserRow reqLogin "mallory") DbError.queryError reqSession 5
      { VendorName := some "AcmeX", Country := none, Website := none }
      rfl).2.2.1⟩

/-- Counterexample to C2 as stated: a successful vendor CREATE appends no
AuditLog row at all (the handler has no audit call), not exactly one. -/
theorem c2_vendor_create_appends_no_audit_row :
    (vendorCreatePOST dbA
      { VendorName := some "Acme2", Country := none, Website := none }).2 =
      .success { VendorID := 6, VendorName := some "Acme2",
                 Country := none, Website := none }
        "Vendor created successfully" ∧
    (vendorCreatePOST dbA
      { VendorName := some "Acme2", Country := none,
        Website := none }).1.auditLogs = dbA.auditLogs := by decide

/-- Claim C2 (amended): a successful vendor UPDATE through the audited
handler appends exactly one AuditLog row (when the audit store is up),
while a successful vendor CREATE appends none. -/
theorem c2_vendor_audit_row_count (env : Env) (db : Db) (req : Request)
    (id : Nat) (bodyU : VendorUpdateBody) (bodyC : VendorCreateBody)
    (hAudit : env.auditFail = none) :
    (∀ v msg, (vendorUpdatePUT env db req id bodyU).2 = .success v msg →
      (vendorUpdatePUT env db req id bodyU).1.auditLogs =
        db.auditLogs ++ [vendorUpdateAuditRow env db req id bodyU] ∧
      (vendorUpdateAuditRow env db req id bodyU).Action = "UPDATE" ∧
      (vendorUpdateAuditRow env db req id bodyU).Module = "Vendors") ∧
    (∀ v msg, (vendorCreatePOST db bodyC).2 = .success v msg →
      (vendorCreatePOST db bodyC).1.auditLogs = db.auditLogs) := by
  constructor
  · intro v msg hsucc
    simp only [vendorUpdatePUT] at hsucc ⊢
    cases h : (db.vendors.map (vendorUpdateApply id bodyU)).filter
        (fun v => v.VendorID == id) with
    | nil => rw [h] at hsucc; cases hsucc
    | cons r rest =>
      rw [h] at hsucc
      rw [hAudit]
      exact ⟨createAuditLog_none_auditLogs _ _, rfl, rfl⟩
  · intro v msg hsucc
    simp only [vendorCreatePOST] at hsucc ⊢
    cases h : jsOrNull bodyC.VendorName with
    | none => rw [h] at hsucc
    | some name => rw [h] at hsucc

/-- Witness for C2 (amended): updating vendor 5 succeeds and appends
exactly the one `UPDATE` audit row. -/
theorem c2_vendor_audit_row_count_witness :
    (vendorUpdatePUT envA dbA reqSession 5
      { VendorName := some "AcmeX", Country := none, Website := none }).1.auditLogs =
      dbA.auditLogs ++ [vendorUpdateAuditRow envA dbA reqSession 5
        { VendorName := some "AcmeX", Country := none, Website := none }] :=
  ((c2_vendor_audit_row_count envA dbA reqSession 5
      { VendorName := some "AcmeX", Country := none, Website := none }
      { VendorName := some "Acme2", Country := none, Website := none } rfl).1
    { VendorID := 5, VendorName := some "AcmeX", Country := none,
      Website := none }
    "Vendor updated successfully" (by decide)).1

/-- Claim C1 (evidence for the code bug): alice logs in, which stores the
opaque token `opaque-hex-1` with `RevokedAt` null; logout runs its
revocation `UPDATE` keyed on the signed JWT cookie `ref1`, which matches
no stored row, so `RevokedAt` is STILL null afterwards; and
`POST /auth/refresh` with the stored signed refresh token still succeeds,
because the handler never consults the `RefreshTokens` table. -/
theorem c1_logout_leaves_refresh_token_usable :
    ((loginPOST envA dbA reqLogin ⟨"alice", "secret123"⟩).1.refreshTokens =
      [{ UserID := 1, Token := "opaque-hex-1", ExpiresAt := 604801000,
         RevokedAt := none }]) ∧
    ((logoutPOST envA (loginPOST envA dbA reqLogin ⟨"alice", "secret123"⟩).1
        reqSession).1.refreshTokens =
      [{ UserID := 1, Token := "opaque-hex-1", ExpiresAt := 604801000,
         RevokedAt := none }]) ∧
    (refreshPOST envA
      (logoutPOST envA (loginPOST envA dbA reqLogin ⟨"alice", "secret123"⟩).1
        reqSession).1 reqSession = .success "acc1" "ref1") := by decide

/-- Counterexample to C8 as stated: bob authenticates with a valid token,
every validation passes and the supplied current password matches his
stored hash, yet the handler answers 404 (his row fails the
`IsActive = 1` filter) — neither 400 nor success — and the hash is
unchanged. -/
theorem c8_inactive_user_answered_404 :
    getAuthUser envA dbA reqBob = some ⟨payloadB, []⟩ ∧
    envA.compare "oldpw" bobRow.PasswordHash = true ∧
    changePasswordPOST envA dbA reqBob ⟨"oldpw", "newpass1", "newpass1"⟩ =
      (dbA, .notFound "User not found") := by decide

/-- Claim C8 (amended, adding that the authenticated user's row must pass
the handler's `IsActive = 1` lookup): mismatched or short new passwords
and wrong current passwords answer 400 with the store unchanged; a correct
current password with passing validation replaces the stored hash and
answers success. -/
theorem c8_change_password_behaviour (env : Env) (db : Db) (req : Request)
    (body : ChangePasswordBody) (user : AuthUserInfo) (urow : UserRow)
    (hauth : getAuthUser env db req = some user)
    (hrow : db.users.find?
      (fun u => u.UserID == user.payload.userId && u.IsActive) = some urow) :
    ((body.newPassword ≠ body.confirmPassword ∨
        jsLength body.newPassword < 6 ∨
        env.compare body.currentPassword urow.PasswordHash = false) →
      ∃ e, changePasswordPOST env db req body = (db, .badRequest e)) ∧
    (body.currentPassword ≠ "" → body.newPassword = body.confirmPassword →
      6 ≤ jsLength body.newPassword →
      env.compare body.currentPassword urow.PasswordHash = true →
      (changePasswordPOST env db req body).2 =
        .success "Password changed successfully" ∧
      (changePasswordPOST env db req body).1.users =
        db.users.map (setPasswordHash user.payload.userId
          (env.hashPw body.newPassword) env.now)) := by
  constructor
  · intro hbad
    by_cases h1 : body.currentPassword = ""
    · exact ⟨"All fields are required",
        by simp [changePasswordPOST, hauth, h1]⟩
    by_cases h2 : body.newPassword = ""
    · exact ⟨"All fields are required",
        by simp [changePasswordPOST, hauth, h1, h2]⟩
    by_cases h3 : body.confirmPassword = ""
    · exact ⟨"All fields are required",
        by simp [changePasswordPOST, hauth, h1, h2, h3]⟩
    by_cases h4 : body.newPassword = body.confirmPassword
    case neg =>
      have h4b : (body.newPassword != body.confirmPassword) = true := by
        simp [h4]
      exact ⟨"New passwords do not match",
        by simp [changePasswordPOST, hauth, h1, h2, h3, h4b]⟩
    have h4b : (body.newPassword != body.confirmPassword) = false := by
      simp [h4]
    by_cases h5 : jsLength body.newPassword < 6
    · exact ⟨"New password must be at least 6 characters",
        by simp [changePasswordPOST, hauth, h1, h2, h3, h4b, h5]⟩
    have h6 : env.compare body.currentPassword urow.PasswordHash = false := by
      rcases hbad with h | h | h
      · exact absurd h4 h
      · exact absurd h h5
      · exact h
    exact ⟨"Current password is incorrect",
      by simp [changePasswordPOST, hauth, h1, h2, h3, h4b, h5, hrow, h6]⟩
  · intro hc hnc hlen hcmp
    have h2 : ¬ body.newPassword = "" := by
      intro h
      rw [h] at hlen
      simp [jsLength] at hlen
    have h3 : ¬ body.confirmPassword = "" := by rw [← hnc]; exact h2
    have h4b : (body.newPassword != body.confirmPassword) = false := by
      simp [hnc]
    have h5 : ¬ jsLength body.newPassword < 6 := Nat.not_lt.mpr hlen
    constructor <;>
      simp [changePasswordPOST, hauth, hc, h2, h3, h4b, h5, hrow, hcmp,
        createAuditLog_users]

/-- Witness for C8 (amended): alice changes her password with the correct
current password and the handler answers success. -/
theorem c8_change_password_behaviour_witness :
    (changePasswordPOST envA dbA reqSession
      ⟨"secret123", "newpass1", "newpass1"⟩).2 =
      .success "Password changed successfully" :=
  ((c8_change_password_behaviour envA dbA reqSession
      ⟨"secret123", "newpass1", "newpass1"⟩
      ⟨payloadA, permissionQuery dbA 1⟩ aliceRow (by decide) (by decide)).2
    (by decide) rfl (by decide) (by decide)).1

/-- Counterexample to C9 as stated: bob's username exists and the password
is wrong, yet the response message is `Account is inactive`, not
`Invalid credentials` (the `IsActive` check runs before the password
check). -/
theorem c9_inactive_account_distinguishable :
    envA.compare "wrongpw" bobRow.PasswordHash = false ∧
    (loginPOST envA dbA reqLogin ⟨"bob", "wrongpw"⟩).2 =
      .unauthorized "Account is inactive" ∧
    LoginOutcome.unauthorized "Account is inactive" ≠
      LoginOutcome.unauthorized "Invalid credentials" := by decide

/-- Claim C9 (amended to existing ACTIVE usernames): an unknown username
and a wrong password on an active account both create no refresh-token
record, both append one `LOGIN_FAILED` audit entry, and both answer the
same `Invalid credentials` message. -/
theorem c9_login_failures_uniform (env : Env) (db : Db) (req : Request)
    (body : LoginRequestBody)
    (hu : ¬ body.username = "") (hp : ¬ body.password = "")
    (hAudit : env.auditFail = none) :
    (db.users.find? (fun u => u.Username == body.username) = none →
      (loginPOST env db req body).1.refreshTokens = db.refreshTokens ∧
      (loginPOST env db req body).2 = .unauthorized "Invalid credentials" ∧
      (loginPOST env db req body).1.auditLogs =
        db.auditLogs ++ [loginFailedNoUserRow req body.username] ∧
      (loginFailedNoUserRow req body.username).Action = "LOGIN_FAILED") ∧
    (∀ user, db.users.find? (fun u => u.Username == body.username) = some user →
      user.IsActive = true →
      env.compare body.password user.PasswordHash = false →
      (loginPOST env db req body).1.refreshTokens = db.refreshTokens ∧
      (loginPOST env db req body).2 = .unauthorized "Invalid credentials" ∧
      (loginPOST env db req body).1.auditLogs =
        db.auditLogs ++ [loginFailedBadPasswordRow user req body.username] ∧
      (loginFailedBadPasswordRow user req body.username).Action =
        "LOGIN_FAILED") := by
  constructor
  · intro hf
    simp [loginPOST, hu, hp, hf, hAudit, createAuditLog_refreshTokens,
      createAuditLog_none_auditLogs, loginFailedNoUserRow]
  · intro user hf hact hcmp
    simp [loginPOST, hu, hp, hf, hact, hcmp, hAudit,
      createAuditLog_refreshTokens, createAuditLog_none_auditLogs,
      loginFailedBadPasswordRow]

/-- Witness for C9 (amended): a nonexistent username and alice with a
wrong password both get `Invalid credentials` with no session record. -/
theorem c9_login_failures_uniform_witness :
    ((loginPOST envA dbA reqLogin ⟨"mallory", "pw"⟩).1.refreshTokens =
      dbA.refreshTokens ∧
     (loginPOST envA dbA reqLogin ⟨"mallory", "pw"⟩).2 =
      .unauthorized "Invalid credentials") ∧
    ((loginPOST envA dbA reqLogin ⟨"alice", "bad"⟩).1.refreshTokens =
      dbA.refreshTokens ∧
     (loginPOST envA dbA reqLogin ⟨"alice", "bad"⟩).2 =
      .unauthorized "Invalid credentials") :=
  ⟨⟨((c9_login_failures_uniform envA dbA reqLogin ⟨"mallory", "pw"⟩
        (by decide) (by decide) rfl).1 (by decide)).1,
    ((c9_login_failures_uniform envA dbA reqLogin ⟨"mallory", "pw"⟩
        (by decide) (by decide) rfl).1 (by decide)).2.1⟩,
   ⟨((c9_login_failures_uniform envA dbA reqLogin ⟨"alice", "bad"⟩
        (by decide) (by decide) rfl).2 aliceRow (by decide) rfl
        (by decide)).1,
    ((c9_login_failures_uniform envA dbA reqLogin ⟨"alice", "bad"⟩
        (by decide) (by decide) rfl).2 aliceRow (by decide) rfl
        (by decide)).2.1⟩⟩

end TIM
